import Mathlib

/-!
Verification of the webhook-to-card relay (src/app.py).

The program is a small web service with two routes:
* `POST /webhook` (`handle_webhook`): parses the inbound JSON envelope,
  extracts seven launch fields from its `data` object, builds an adaptive
  card, POSTs one message to the Webex API, and maps the upstream outcome
  to its own HTTP response;
* `GET /status` (`status`): a liveness page.

The embedding is shallow: JSON documents are an inductive `Json`, the
environment configuration is a `Config` record, and the external messaging
API is an oracle `HttpRequest → HttpResponse`.  `handle_webhook` returns the
trace of outbound requests it issued together with its own response
(`none` standing for the unhandled Python fault raised by a failed
dictionary access on malformed input).
-/

/-- JSON values, as produced by Flask's `request.get_json()` and consumed by
`jsonify` / `requests.post(json=...)`.  Objects keep their fields in order;
parsed documents have unique keys, so lookup takes the first occurrence. -/
inductive Json where
  | null : Json
  | bool : Bool → Json
  | str : String → Json
  | arr : List Json → Json
  | obj : List (String × Json) → Json
deriving Repr

/-- Dictionary access `j[k]`: `some` value on an object that has the key,
`none` otherwise (Python raises `KeyError` / `TypeError` there). -/
def Json.lookup (j : Json) (k : String) : Option Json :=
  match j with
  | .obj fields => List.lookup k fields
  | _ => none

/-- List indexing `j[i]` on a JSON array. -/
def Json.idx (j : Json) (i : Nat) : Option Json :=
  match j with
  | .arr xs => xs.get? i
  | _ => none

/-- All string leaves of a document, in document order (keys excluded). -/
def Json.strings : Json → List String
  | .null => []
  | .bool _ => []
  | .str s => [s]
  | .arr [] => []
  | .arr (x :: xs) => x.strings ++ (Json.arr xs).strings
  | .obj [] => []
  | .obj ((_, v) :: fields) => v.strings ++ (Json.obj fields).strings

/-- The environment configuration read at startup (`load_dotenv` /
`os.getenv`): the bot token and the destination room id. -/
structure Config where
  webex_bot_token : String
  webex_room_id : String

/-- An outbound HTTP request as issued by `requests.post(url, headers=...,
json=...)`. -/
structure HttpRequest where
  url : String
  reqHeaders : List (String × String)
  body : Json
deriving Repr

/-- The upstream response observed by the handler: `response.status_code`
and `response.text`. -/
structure HttpResponse where
  status_code : Nat
  text : String

/-- `response.ok` from the `requests` library: true when the status code is
below 400. -/
def HttpResponse.ok (r : HttpResponse) : Bool :=
  r.status_code < 400

/-- `api_url` (src/app.py line 13). -/
def api_url : String := "https://webexapis.com/v1/messages"

/-- `headers` (src/app.py lines 14-17). -/
def headers (cfg : Config) : List (String × String) :=
  [("Content-Type", "application/json"),
   ("Authorization", "Bearer " ++ cfg.webex_bot_token)]

/-- `card_payload` (src/app.py lines 36-111): the adaptive card built from
the seven extracted launch details. -/
def card_payload (rocket_name payload_type payload_description launch_time
    launch_site mission_patch video_stream : Json) : Json :=
  Json.obj
    [("$schema", Json.str "http://adaptivecards.io/schemas/adaptive-card.json"),
     ("type", Json.str "AdaptiveCard"),
     ("version", Json.str "1.3"),
     ("body", Json.arr
       [Json.obj
         [("type", Json.str "TextBlock"),
          ("text", Json.str "Rocket Launch Successful!"),
          ("weight", Json.str "Bolder"),
          ("size", Json.str "Large"),
          ("color", Json.str "Accent"),
          ("wrap", Json.bool true)],
        Json.obj
         [("type", Json.str "ColumnSet"),
          ("columns", Json.arr
            [Json.obj
              [("type", Json.str "Column"),
               ("width", Json.str "auto"),
               ("items", Json.arr
                 [Json.obj
                   [("type", Json.str "Image"),
                    ("url", mission_patch),
                    ("size", Json.str "Small"),
                    ("style", Json.str "Person")]])],
             Json.obj
              [("type", Json.str "Column"),
               ("width", Json.str "stretch"),
               ("items", Json.arr
                 [Json.obj
                   [("type", Json.str "TextBlock"),
                    ("text", Json.str "Rocket Launch Details"),
                    ("weight", Json.str "Bolder"),
                    ("wrap", Json.bool true)],
                  Json.obj
                   [("type", Json.str "FactSet"),
                    ("facts", Json.arr
                      [Json.obj [("title", Json.str "Rocket Name"),
                                 ("value", rocket_name)],
                       Json.obj [("title", Json.str "Payload Type"),
                                 ("value", payload_type)],
                       Json.obj [("title", Json.str "Payload Description"),
                                 ("value", payload_description)],
                       Json.obj [("title", Json.str "Launch Time"),
                                 ("value", launch_time)],
                       Json.obj [("title", Json.str "Launch Site"),
                                 ("value", launch_site)]])]])]])]]),
     ("actions", Json.arr
       [Json.obj
         [("type", Json.str "Action.OpenUrl"),
          ("title", Json.str "Watch the Launch"),
          ("url", video_stream)]])]

/-- `message_payload` (src/app.py lines 114-123): the Webex message envelope
wrapping the card. -/
def message_payload (cfg : Config) (rocket_name payload_type
    payload_description launch_time launch_site mission_patch
    video_stream : Json) : Json :=
  Json.obj
    [("roomId", Json.str cfg.webex_room_id),
     ("attachments", Json.arr
       [Json.obj
         [("contentType", Json.str "application/vnd.microsoft.card.adaptive"),
          ("content", card_payload rocket_name payload_type
            payload_description launch_time launch_site mission_patch
            video_stream)]]),
     ("text", Json.str "New Rocket Launch Detected")]

/-- The single outbound POST issued on src/app.py line 126:
`requests.post(api_url, headers=headers, json=message_payload)`. -/
def message_request (cfg : Config) (rocket_name payload_type
    payload_description launch_time launch_site mission_patch
    video_stream : Json) : HttpRequest :=
  { url := api_url,
    reqHeaders := headers cfg,
    body := message_payload cfg rocket_name payload_type payload_description
      launch_time launch_site mission_patch video_stream }

/-- `handle_webhook` (src/app.py lines 20-131).  Returns the list of
outbound requests issued (the trace) together with `some (body, status)`
for the handler's own HTTP response, or `none` when a dictionary access on
the inbound document fails and the Python handler faults before
responding. -/
def handle_webhook (cfg : Config) (api : HttpRequest → HttpResponse)
    (webhook : Json) : List HttpRequest × Option (Json × Nat) :=
  match webhook.lookup "data" with
  | none => ([], none)
  | some data =>
  match data.lookup "rocket_name" with
  | none => ([], none)
  | some rocket_name =>
  match data.lookup "payload_type" with
  | none => ([], none)
  | some payload_type =>
  match data.lookup "payload_description" with
  | none => ([], none)
  | some payload_description =>
  match data.lookup "launch_time" with
  | none => ([], none)
  | some launch_time =>
  match data.lookup "launch_site" with
  | none => ([], none)
  | some launch_site =>
  match data.lookup "mission_patch" with
  | none => ([], none)
  | some mission_patch =>
  match data.lookup "video_stream" with
  | none => ([], none)
  | some video_stream =>
    let req := message_request cfg rocket_name payload_type
      payload_description launch_time launch_site mission_patch video_stream
    let response := api req
    if response.ok then
      ([req], some (Json.obj [("success", Json.bool true)], 200))
    else
      ([req], some (Json.obj [("success", Json.bool false),
                              ("message", Json.str response.text)],
                    response.status_code))

/-- Modelled from the spec: the file `templates/status.html` rendered by
`render_template('status.html', message=...)` is not part of the source
tree; per the spec the liveness endpoint returns a fixed confirmation body
built from the given message. -/
def render_template_status (message : String) : String :=
  message

/-- `status` (src/app.py lines 134-136): the `GET /status` liveness
endpoint.  It issues no outbound request (empty trace) and returns status
200 with the rendered confirmation body. -/
def status : List HttpRequest × (Nat × String) :=
  ([], (200, render_template_status "The server is up and running!"))

/-- Navigate from a message envelope to the attached adaptive card:
`attachments[0].content`. -/
def message_card (m : Json) : Option Json := do
  let att ← m.lookup "attachments"
  let a0 ← att.idx 0
  a0.lookup "content"

/-- The FactSet fact list of the card: `body[1].columns[1].items[1].facts`. -/
def card_facts (m : Json) : Option Json := do
  let card ← message_card m
  let body ← card.lookup "body"
  let colset ← body.idx 1
  let cols ← colset.lookup "columns"
  let col1 ← cols.idx 1
  let items ← col1.lookup "items"
  let factset ← items.idx 1
  factset.lookup "facts"

/-- The Image url of the card: `body[1].columns[0].items[0].url`. -/
def card_image_url (m : Json) : Option Json := do
  let card ← message_card m
  let body ← card.lookup "body"
  let colset ← body.idx 1
  let cols ← colset.lookup "columns"
  let col0 ← cols.idx 0
  let items ← col0.lookup "items"
  let img ← items.idx 0
  img.lookup "url"

/-- The Action.OpenUrl url of the card: `actions[0].url`. -/
def card_action_url (m : Json) : Option Json := do
  let card ← message_card m
  let actions ← card.lookup "actions"
  let a0 ← actions.idx 0
  a0.lookup "url"

/-- The header text block of the card: `body[0]`. -/
def card_header (m : Json) : Option Json := do
  let card ← message_card m
  let body ← card.lookup "body"
  body.idx 0

/-- A FactSet entry `{"title": t, "value": v}`. -/
def fact (t : String) (v : Json) : Json :=
  Json.obj [("title", Json.str t), ("value", v)]

/-- Concrete configuration used to exercise the theorems. -/
def cfg0 : Config := ⟨"BOT-TOKEN", "ROOM-ID"⟩

/-- The `data` object of the spec's end-to-end example event. -/
def data0 : Json :=
  Json.obj
    [("rocket_name", Json.str "Falcon 9"),
     ("payload_type", Json.str "Satellite"),
     ("payload_description", Json.str "Comms relay"),
     ("launch_time", Json.str "2024-01-01T00:00:00Z"),
     ("launch_site", Json.str "Cape Canaveral"),
     ("mission_patch", Json.str "http://x/img.png"),
     ("video_stream", Json.str "http://x/video")]

/-- The spec's end-to-end example inbound event. -/
def w0 : Json := Json.obj [("data", data0)]

/-- A second envelope carrying the same seven field values plus an extra
ignored field, to exercise determinism across distinct inbound events. -/
def data1 : Json :=
  Json.obj
    [("rocket_name", Json.str "Falcon 9"),
     ("payload_type", Json.str "Satellite"),
     ("payload_description", Json.str "Comms relay"),
     ("launch_time", Json.str "2024-01-01T00:00:00Z"),
     ("launch_site", Json.str "Cape Canaveral"),
     ("mission_patch", Json.str "http://x/img.png"),
     ("video_stream", Json.str "http://x/video"),
     ("extra_field", Json.str "ignored")]

/-- Envelope around `data1`. -/
def w1 : Json := Json.obj [("data", data1)]

/-- A malformed inbound event: its `data` object lacks `rocket_name`. -/
def w_missing : Json :=
  Json.obj [("data", Json.obj [("payload_type", Json.str "Satellite")])]

/-- An upstream oracle that always answers 200. -/
def api200 : HttpRequest → HttpResponse := fun _ => ⟨200, "message created"⟩

/-- An upstream oracle that always answers 400. -/
def api400 : HttpRequest → HttpResponse := fun _ => ⟨400, "roomId is invalid"⟩

/-- An upstream oracle that always answers with a 302 redirect. -/
def api302 : HttpRequest → HttpResponse := fun _ => ⟨302, "redirected"⟩

/-- Unfolding lemma: once all seven extractions succeed, `handle_webhook`
issues the single message POST and branches only on `response.ok`. -/
theorem handle_webhook_unfold (cfg : Config) (api : HttpRequest → HttpResponse)
    (webhook data v1 v2 v3 v4 v5 v6 v7 : Json)
    (hd : webhook.lookup "data" = some data)
    (h1 : data.lookup "rocket_name" = some v1)
    (h2 : data.lookup "payload_type" = some v2)
    (h3 : data.lookup "payload_description" = some v3)
    (h4 : data.lookup "launch_time" = some v4)
    (h5 : data.lookup "launch_site" = some v5)
    (h6 : data.lookup "mission_patch" = some v6)
    (h7 : data.lookup "video_stream" = some v7) :
    handle_webhook cfg api webhook =
      (if (api (message_request cfg v1 v2 v3 v4 v5 v6 v7)).ok then
        ([message_request cfg v1 v2 v3 v4 v5 v6 v7],
         some (Json.obj [("success", Json.bool true)], 200))
      else
        ([message_request cfg v1 v2 v3 v4 v5 v6 v7],
         some (Json.obj [("success", Json.bool false),
                 ("message",
                  Json.str (api (message_request cfg v1 v2 v3 v4 v5 v6 v7)).text)],
               (api (message_request cfg v1 v2 v3 v4 v5 v6 v7)).status_code))) := by
  simp only [handle_webhook, hd, h1, h2, h3, h4, h5, h6, h7]

/-- The trace of a run on a well-formed event is the single message POST,
whatever the upstream answers. -/
theorem handle_webhook_trace (cfg : Config) (api : HttpRequest → HttpResponse)
    (webhook data v1 v2 v3 v4 v5 v6 v7 : Json)
    (hd : webhook.lookup "data" = some data)
    (h1 : data.lookup "rocket_name" = some v1)
    (h2 : data.lookup "payload_type" = some v2)
    (h3 : data.lookup "payload_description" = some v3)
    (h4 : data.lookup "launch_time" = some v4)
    (h5 : data.lookup "launch_site" = some v5)
    (h6 : data.lookup "mission_patch" = some v6)
    (h7 : data.lookup "video_stream" = some v7) :
    (handle_webhook cfg api webhook).1 =
      [message_request cfg v1 v2 v3 v4 v5 v6 v7] := by
  rw [handle_webhook_unfold cfg api webhook data v1 v2 v3 v4 v5 v6 v7
    hd h1 h2 h3 h4 h5 h6 h7]
  by_cases h : (api (message_request cfg v1 v2 v3 v4 v5 v6 v7)).ok <;> simp [h]

/-- C1: for every inbound event whose data object contains the seven
required string fields, the seven extracted values appear verbatim in the
fixed slots of the outbound card: the five facts of the FactSet, the Image
url, and the Action.OpenUrl url. -/
theorem webhook_fields_verbatim (cfg : Config) (api : HttpRequest → HttpResponse)
    (webhook data : Json) (rn pt pd lt ls mp vs : String)
    (hd : webhook.lookup "data" = some data)
    (h1 : data.lookup "rocket_name" = some (Json.str rn))
    (h2 : data.lookup "payload_type" = some (Json.str pt))
    (h3 : data.lookup "payload_description" = some (Json.str pd))
    (h4 : data.lookup "launch_time" = some (Json.str lt))
    (h5 : data.lookup "launch_site" = some (Json.str ls))
    (h6 : data.lookup "mission_patch" = some (Json.str mp))
    (h7 : data.lookup "video_stream" = some (Json.str vs)) :
    (handle_webhook cfg api webhook).1.map
      (fun r => (card_facts r.body, card_image_url r.body, card_action_url r.body)) =
      [(some (Json.arr
          [fact "Rocket Name" (Json.str rn),
           fact "Payload Type" (Json.str pt),
           fact "Payload Description" (Json.str pd),
           fact "Launch Time" (Json.str lt),
           fact "Launch Site" (Json.str ls)]),
        some (Json.str mp),
        some (Json.str vs))] := by
  rw [handle_webhook_trace cfg api webhook data _ _ _ _ _ _ _
    hd h1 h2 h3 h4 h5 h6 h7]
  rfl

/-- C1 witness: the spec's end-to-end example event. -/
theorem webhook_fields_verbatim_witness :
    (handle_webhook cfg0 api200 w0).1.map
      (fun r => (card_facts r.body, card_image_url r.body, card_action_url r.body)) =
      [(some (Json.arr
          [fact "Rocket Name" (Json.str "Falcon 9"),
           fact "Payload Type" (Json.str "Satellite"),
           fact "Payload Description" (Json.str "Comms relay"),
           fact "Launch Time" (Json.str "2024-01-01T00:00:00Z"),
           fact "Launch Site" (Json.str "Cape Canaveral")]),
        some (Json.str "http://x/img.png"),
        some (Json.str "http://x/video"))] :=
  webhook_fields_verbatim cfg0 api200 w0 data0 "Falcon 9" "Satellite"
    "Comms relay" "2024-01-01T00:00:00Z" "Cape Canaveral" "http://x/img.png"
    "http://x/video" rfl rfl rfl rfl rfl rfl rfl rfl

/-- C2: on a well-formed event, when the upstream answers a non-success
status (400 or above), the handler mirrors that status and returns the body
with success false and the upstream's raw response text. -/
theorem upstream_failure_mirrored (cfg : Config) (api : HttpRequest → HttpResponse)
    (webhook data v1 v2 v3 v4 v5 v6 v7 : Json)
    (hd : webhook.lookup "data" = some data)
    (h1 : data.lookup "rocket_name" = some v1)
    (h2 : data.lookup "payload_type" = some v2)
    (h3 : data.lookup "payload_description" = some v3)
    (h4 : data.lookup "launch_time" = some v4)
    (h5 : data.lookup "launch_site" = some v5)
    (h6 : data.lookup "mission_patch" = some v6)
    (h7 : data.lookup "video_stream" = some v7)
    (hfail : 400 ≤ (api (message_request cfg v1 v2 v3 v4 v5 v6 v7)).status_code) :
    (handle_webhook cfg api webhook).2 =
      some (Json.obj [("success", Json.bool false),
              ("message",
               Json.str (api (message_request cfg v1 v2 v3 v4 v5 v6 v7)).text)],
            (api (message_request cfg v1 v2 v3 v4 v5 v6 v7)).status_code) := by
  rw [handle_webhook_unfold cfg api webhook data v1 v2 v3 v4 v5 v6 v7
    hd h1 h2 h3 h4 h5 h6 h7]
  have hok : (api (message_request cfg v1 v2 v3 v4 v5 v6 v7)).ok = false := by
    simp only [HttpResponse.ok, decide_eq_false_iff_not, not_lt]
    exact hfail
  simp [hok]

/-- C2 witness: upstream answers 400 with body "roomId is invalid". -/
theorem upstream_failure_mirrored_witness :
    (handle_webhook cfg0 api400 w0).2 =
      some (Json.obj [("success", Json.bool false),
              ("message", Json.str "roomId is invalid")], 400) :=
  upstream_failure_mirrored cfg0 api400 w0 data0 (Json.str "Falcon 9")
    (Json.str "Satellite") (Json.str "Comms relay")
    (Json.str "2024-01-01T00:00:00Z") (Json.str "Cape Canaveral")
    (Json.str "http://x/img.png") (Json.str "http://x/video")
    rfl rfl rfl rfl rfl rfl rfl rfl (by decide)

/-- C3: on a well-formed event, when the upstream answers a success status
(`response.ok`, status below 400), the handler responds with exactly the
body with success true and status 200, for every upstream response body. -/
theorem upstream_success_ack (cfg : Config) (api : HttpRequest → HttpResponse)
    (webhook data v1 v2 v3 v4 v5 v6 v7 : Json)
    (hd : webhook.lookup "data" = some data)
    (h1 : data.lookup "rocket_name" = some v1)
    (h2 : data.lookup "payload_type" = some v2)
    (h3 : data.lookup "payload_description" = some v3)
    (h4 : data.lookup "launch_time" = some v4)
    (h5 : data.lookup "launch_site" = some v5)
    (h6 : data.lookup "mission_patch" = some v6)
    (h7 : data.lookup "video_stream" = some v7)
    (hok : (api (message_request cfg v1 v2 v3 v4 v5 v6 v7)).status_code < 400) :
    (handle_webhook cfg api webhook).2 =
      some (Json.obj [("success", Json.bool true)], 200) := by
  rw [handle_webhook_unfold cfg api webhook data v1 v2 v3 v4 v5 v6 v7
    hd h1 h2 h3 h4 h5 h6 h7]
  simp [HttpResponse.ok, hok]

/-- C3 witness: upstream answers 200 with an arbitrary body. -/
theorem upstream_success_ack_witness :
    (handle_webhook cfg0 api200 w0).2 =
      some (Json.obj [("success", Json.bool true)], 200) :=
  upstream_success_ack cfg0 api200 w0 data0 (Json.str "Falcon 9")
    (Json.str "Satellite") (Json.str "Comms relay")
    (Json.str "2024-01-01T00:00:00Z") (Json.str "Cape Canaveral")
    (Json.str "http://x/img.png") (Json.str "http://x/video")
    rfl rfl rfl rfl rfl rfl rfl rfl (by decide)

/-- C4: when the inbound JSON lacks the `data` object or `data` is missing
any one of the seven required fields, the handler faults (no clean response,
modelled as `none`) and issues no outbound POST (empty trace). -/
theorem malformed_webhook_faults (cfg : Config) (api : HttpRequest → HttpResponse)
    (webhook : Json)
    (h : webhook.lookup "data" = none ∨
         ∃ data, webhook.lookup "data" = some data ∧
           (data.lookup "rocket_name" = none ∨
            data.lookup "payload_type" = none ∨
            data.lookup "payload_description" = none ∨
            data.lookup "launch_time" = none ∨
            data.lookup "launch_site" = none ∨
            data.lookup "mission_patch" = none ∨
            data.lookup "video_stream" = none)) :
    handle_webhook cfg api webhook = ([], none) := by
  rcases h with hd | ⟨data, hd, hf⟩
  · simp [handle_webhook, hd]
  rcases e1 : data.lookup "rocket_name" with _ | v1
  · simp [handle_webhook, hd, e1]
  rcases e2 : data.lookup "payload_type" with _ | v2
  · simp [handle_webhook, hd, e1, e2]
  rcases e3 : data.lookup "payload_description" with _ | v3
  · simp [handle_webhook, hd, e1, e2, e3]
  rcases e4 : data.lookup "launch_time" with _ | v4
  · simp [handle_webhook, hd, e1, e2, e3, e4]
  rcases e5 : data.lookup "launch_site" with _ | v5
  · simp [handle_webhook, hd, e1, e2, e3, e4, e5]
  rcases e6 : data.lookup "mission_patch" with _ | v6
  · simp [handle_webhook, hd, e1, e2, e3, e4, e5, e6]
  rcases e7 : data.lookup "video_stream" with _ | v7
  · simp [handle_webhook, hd, e1, e2, e3, e4, e5, e6, e7]
  rcases hf with hf | hf | hf | hf | hf | hf | hf
  · simp [e1] at hf
  · simp [e2] at hf
  · simp [e3] at hf
  · simp [e4] at hf
  · simp [e5] at hf
  · simp [e6] at hf
  · simp [e7] at hf

/-- C4 witness: an event whose data object lacks `rocket_name`. -/
theorem malformed_webhook_faults_witness :
    handle_webhook cfg0 api200 w_missing = ([], none) :=
  malformed_webhook_faults cfg0 api200 w_missing
    (Or.inr ⟨Json.obj [("payload_type", Json.str "Satellite")], rfl, Or.inl rfl⟩)

/-- C5: on a well-formed event the handler issues exactly one outbound POST,
to the fixed Webex URL with the JSON content type and bearer-token headers,
and with the message envelope carrying the room id, the card attachment and
the fixed summary text. -/
theorem single_outbound_post_shape (cfg : Config) (api : HttpRequest → HttpResponse)
    (webhook data v1 v2 v3 v4 v5 v6 v7 : Json)
    (hd : webhook.lookup "data" = some data)
    (h1 : data.lookup "rocket_name" = some v1)
    (h2 : data.lookup "payload_type" = some v2)
    (h3 : data.lookup "payload_description" = some v3)
    (h4 : data.lookup "launch_time" = some v4)
    (h5 : data.lookup "launch_site" = some v5)
    (h6 : data.lookup "mission_patch" = some v6)
    (h7 : data.lookup "video_stream" = some v7) :
    (handle_webhook cfg api webhook).1 =
      [{ url := "https://webexapis.com/v1/messages",
         reqHeaders := [("Content-Type", "application/json"),
                        ("Authorization", "Bearer " ++ cfg.webex_bot_token)],
         body := Json.obj
           [("roomId", Json.str cfg.webex_room_id),
            ("attachments", Json.arr
              [Json.obj
                [("contentType", Json.str "application/vnd.microsoft.card.adaptive"),
                 ("content", card_payload v1 v2 v3 v4 v5 v6 v7)]]),
            ("text", Json.str "New Rocket Launch Detected")] }] := by
  rw [handle_webhook_trace cfg api webhook data v1 v2 v3 v4 v5 v6 v7
    hd h1 h2 h3 h4 h5 h6 h7]
  rfl

/-- C5 witness: the example event against the concrete configuration. -/
theorem single_outbound_post_shape_witness :
    (handle_webhook cfg0 api200 w0).1 =
      [{ url := "https://webexapis.com/v1/messages",
         reqHeaders := [("Content-Type", "application/json"),
                        ("Authorization", "Bearer BOT-TOKEN")],
         body := Json.obj
           [("roomId", Json.str "ROOM-ID"),
            ("attachments", Json.arr
              [Json.obj
                [("contentType", Json.str "application/vnd.microsoft.card.adaptive"),
                 ("content", card_payload (Json.str "Falcon 9")
                   (Json.str "Satellite") (Json.str "Comms relay")
                   (Json.str "2024-01-01T00:00:00Z") (Json.str "Cape Canaveral")
                   (Json.str "http://x/img.png") (Json.str "http://x/video"))]]),
            ("text", Json.str "New Rocket Launch Detected")] }] :=
  single_outbound_post_shape cfg0 api200 w0 data0 (Json.str "Falcon 9")
    (Json.str "Satellite") (Json.str "Comms relay")
    (Json.str "2024-01-01T00:00:00Z") (Json.str "Cape Canaveral")
    (Json.str "http://x/img.png") (Json.str "http://x/video")
    rfl rfl rfl rfl rfl rfl rfl rfl

/-- C6: the field-to-payload mapping is deterministic and branch-free: two
well-formed events with identical values of the seven fields yield an
identical outbound request, whatever else the envelopes contain, whatever
values (validated by nothing) the fields hold, and whatever the upstream
answers. -/
theorem payload_deterministic (cfg : Config)
    (apiA apiB : HttpRequest → HttpResponse)
    (wa wb da db v1 v2 v3 v4 v5 v6 v7 : Json)
    (hda : wa.lookup "data" = some da)
    (ha1 : da.lookup "rocket_name" = some v1)
    (ha2 : da.lookup "payload_type" = some v2)
    (ha3 : da.lookup "payload_description" = some v3)
    (ha4 : da.lookup "launch_time" = some v4)
    (ha5 : da.lookup "launch_site" = some v5)
    (ha6 : da.lookup "mission_patch" = some v6)
    (ha7 : da.lookup "video_stream" = some v7)
    (hdb : wb.lookup "data" = some db)
    (hb1 : db.lookup "rocket_name" = some v1)
    (hb2 : db.lookup "payload_type" = some v2)
    (hb3 : db.lookup "payload_description" = some v3)
    (hb4 : db.lookup "launch_time" = some v4)
    (hb5 : db.lookup "launch_site" = some v5)
    (hb6 : db.lookup "mission_patch" = some v6)
    (hb7 : db.lookup "video_stream" = some v7) :
    (handle_webhook cfg apiA wa).1 = (handle_webhook cfg apiB wb).1 := by
  rw [handle_webhook_trace cfg apiA wa da v1 v2 v3 v4 v5 v6 v7
    hda ha1 ha2 ha3 ha4 ha5 ha6 ha7]
  rw [handle_webhook_trace cfg apiB wb db v1 v2 v3 v4 v5 v6 v7
    hdb hb1 hb2 hb3 hb4 hb5 hb6 hb7]

/-- C6 witness: two distinct envelopes with the same seven field values and
different upstream behaviours produce the same outbound request. -/
theorem payload_deterministic_witness :
    (handle_webhook cfg0 api200 w0).1 = (handle_webhook cfg0 api400 w1).1 :=
  payload_deterministic cfg0 api200 api400 w0 w1 data0 data1
    (Json.str "Falcon 9") (Json.str "Satellite") (Json.str "Comms relay")
    (Json.str "2024-01-01T00:00:00Z") (Json.str "Cape Canaveral")
    (Json.str "http://x/img.png") (Json.str "http://x/video")
    rfl rfl rfl rfl rfl rfl rfl rfl rfl rfl rfl rfl rfl rfl rfl rfl

/-- C7: the outbound payload is a pure, order-preserving copy of the inbound
fields with no derived values: every string leaf of the message body, in
document order, is either a fixed constant of the card schema or one of the
seven inbound values verbatim, and the five fact values occur in the
inbound field order rocket_name, payload_type, payload_description,
launch_time, launch_site. -/
theorem payload_pure_copy (cfg : Config) (api : HttpRequest → HttpResponse)
    (webhook data : Json) (rn pt pd lt ls mp vs : String)
    (hd : webhook.lookup "data" = some data)
    (h1 : data.lookup "rocket_name" = some (Json.str rn))
    (h2 : data.lookup "payload_type" = some (Json.str pt))
    (h3 : data.lookup "payload_description" = some (Json.str pd))
    (h4 : data.lookup "launch_time" = some (Json.str lt))
    (h5 : data.lookup "launch_site" = some (Json.str ls))
    (h6 : data.lookup "mission_patch" = some (Json.str mp))
    (h7 : data.lookup "video_stream" = some (Json.str vs)) :
    (handle_webhook cfg api webhook).1.map (fun r => r.body.strings) =
      [[cfg.webex_room_id, "application/vnd.microsoft.card.adaptive",
        "http://adaptivecards.io/schemas/adaptive-card.json", "AdaptiveCard",
        "1.3", "TextBlock", "Rocket Launch Successful!", "Bolder", "Large",
        "Accent", "ColumnSet", "Column", "auto", "Image", mp, "Small",
        "Person", "Column", "stretch", "TextBlock", "Rocket Launch Details",
        "Bolder", "FactSet", "Rocket Name", rn, "Payload Type", pt,
        "Payload Description", pd, "Launch Time", lt, "Launch Site", ls,
        "Action.OpenUrl", "Watch the Launch", vs,
        "New Rocket Launch Detected"]] := by
  rw [handle_webhook_trace cfg api webhook data _ _ _ _ _ _ _
    hd h1 h2 h3 h4 h5 h6 h7]
  simp [message_request, message_payload, card_payload, Json.strings]

/-- C7 witness: the example event. -/
theorem payload_pure_copy_witness :
    (handle_webhook cfg0 api200 w0).1.map (fun r => r.body.strings) =
      [["ROOM-ID", "application/vnd.microsoft.card.adaptive",
        "http://adaptivecards.io/schemas/adaptive-card.json", "AdaptiveCard",
        "1.3", "TextBlock", "Rocket Launch Successful!", "Bolder", "Large",
        "Accent", "ColumnSet", "Column", "auto", "Image", "http://x/img.png",
        "Small", "Person", "Column", "stretch", "TextBlock",
        "Rocket Launch Details", "Bolder", "FactSet", "Rocket Name",
        "Falcon 9", "Payload Type", "Satellite", "Payload Description",
        "Comms relay", "Launch Time", "2024-01-01T00:00:00Z", "Launch Site",
        "Cape Canaveral", "Action.OpenUrl", "Watch the Launch",
        "http://x/video", "New Rocket Launch Detected"]] :=
  payload_pure_copy cfg0 api200 w0 data0 "Falcon 9" "Satellite" "Comms relay"
    "2024-01-01T00:00:00Z" "Cape Canaveral" "http://x/img.png"
    "http://x/video" rfl rfl rfl rfl rfl rfl rfl rfl

/-- C8: the `GET /status` endpoint answers 200 with the fixed, non-empty
confirmation body and performs no outbound call; being a constant, it is
independent of any webhook activity. -/
theorem status_liveness :
    status = ([], (200, "The server is up and running!")) ∧
    "The server is up and running!" ≠ "" := by
  exact ⟨rfl, by decide⟩

/-- C9: on a well-formed event the handler acknowledges success exactly when
the upstream status is strictly below 400, so 3xx redirect statuses are
treated as success and the failure branch is reached only at 400 and
above. -/
theorem success_iff_status_lt_400 (cfg : Config) (api : HttpRequest → HttpResponse)
    (webhook data v1 v2 v3 v4 v5 v6 v7 : Json)
    (hd : webhook.lookup "data" = some data)
    (h1 : data.lookup "rocket_name" = some v1)
    (h2 : data.lookup "payload_type" = some v2)
    (h3 : data.lookup "payload_description" = some v3)
    (h4 : data.lookup "launch_time" = some v4)
    (h5 : data.lookup "launch_site" = some v5)
    (h6 : data.lookup "mission_patch" = some v6)
    (h7 : data.lookup "video_stream" = some v7) :
    (handle_webhook cfg api webhook).2 =
        some (Json.obj [("success", Json.bool true)], 200) ↔
      (api (message_request cfg v1 v2 v3 v4 v5 v6 v7)).status_code < 400 := by
  rw [handle_webhook_unfold cfg api webhook data v1 v2 v3 v4 v5 v6 v7
    hd h1 h2 h3 h4 h5 h6 h7]
  by_cases h : (api (message_request cfg v1 v2 v3 v4 v5 v6 v7)).status_code < 400
  · simp [HttpResponse.ok, h]
  · simp [HttpResponse.ok, h]

/-- C9 witness: a 302 redirect from the upstream is acknowledged as
success. -/
theorem success_iff_status_lt_400_witness :
    (handle_webhook cfg0 api302 w0).2 =
      some (Json.obj [("success", Json.bool true)], 200) :=
  (success_iff_status_lt_400 cfg0 api302 w0 data0 (Json.str "Falcon 9")
    (Json.str "Satellite") (Json.str "Comms relay")
    (Json.str "2024-01-01T00:00:00Z") (Json.str "Cape Canaveral")
    (Json.str "http://x/img.png") (Json.str "http://x/video")
    rfl rfl rfl rfl rfl rfl rfl rfl).mpr (by decide)

/-- C10: on every well-formed event, whatever the seven field values, the
card's header block is the constant bold large "Rocket Launch Successful!"
text block and the message's summary text is the constant "New Rocket
Launch Detected". -/
theorem constant_header_and_text (cfg : Config) (api : HttpRequest → HttpResponse)
    (webhook data v1 v2 v3 v4 v5 v6 v7 : Json)
    (hd : webhook.lookup "data" = some data)
    (h1 : data.lookup "rocket_name" = some v1)
    (h2 : data.lookup "payload_type" = some v2)
    (h3 : data.lookup "payload_description" = some v3)
    (h4 : data.lookup "launch_time" = some v4)
    (h5 : data.lookup "launch_site" = some v5)
    (h6 : data.lookup "mission_patch" = some v6)
    (h7 : data.lookup "video_stream" = some v7) :
    (handle_webhook cfg api webhook).1.map
      (fun r => (card_header r.body, r.body.lookup "text")) =
      [(some (Json.obj
          [("type", Json.str "TextBlock"),
           ("text", Json.str "Rocket Launch Successful!"),
           ("weight", Json.str "Bolder"),
           ("size", Json.str "Large"),
           ("color", Json.str "Accent"),
           ("wrap", Json.bool true)]),
        some (Json.str "New Rocket Launch Detected"))] := by
  rw [handle_webhook_trace cfg api webhook data v1 v2 v3 v4 v5 v6 v7
    hd h1 h2 h3 h4 h5 h6 h7]
  rfl

/-- C10 witness: the example event. -/
theorem constant_header_and_text_witness :
    (handle_webhook cfg0 api200 w0).1.map
      (fun r => (card_header r.body, r.body.lookup "text")) =
      [(some (Json.obj
          [("type", Json.str "TextBlock"),
           ("text", Json.str "Rocket Launch Successful!"),
           ("weight", Json.str "Bolder"),
           ("size", Json.str "Large"),
           ("color", Json.str "Accent"),
           ("wrap", Json.bool true)]),
        some (Json.str "New Rocket Launch Detected"))] :=
  constant_header_and_text cfg0 api200 w0 data0 (Json.str "Falcon 9")
    (Json.str "Satellite") (Json.str "Comms relay")
    (Json.str "2024-01-01T00:00:00Z") (Json.str "Cape Canaveral")
    (Json.str "http://x/img.png") (Json.str "http://x/video")
    rfl rfl rfl rfl rfl rfl rfl rfl
